import Mathlib

/-!
Shallow embedding of the `rag_service` repository (feedback-generation
pipeline): Python sources are translated into executable Lean definitions and
the specification's claims are settled as theorems about those definitions.

Sources embedded here:
* `rag_service/core/feedback_processor.py` (`extract_grade`,
  `prepare_tap_feedback`, `update_feedback_request`, `mark_request_failed`,
  `process_feedback`)
* `rag_service/core/vector_store.py` (`FAISSManager`: `_load_existing_vectors`,
  `add_vector`, `search_similar`)
* `rag_service/core/context_fetcher.py` (`AssignmentContextFetcher`:
  `_fetch_from_api`, `_wait_before_retry`, `get_assignment_context`)
* `rag_service/core/assignment_context_manager.py`
  (`AssignmentContextManager._fetch_from_api`)
* `rag_service/handlers/feedback_handler.py` (`FeedbackHandler`:
  `create_feedback_request`, `handle_submission`, `mark_request_failed`,
  `retry_failed_request`)
* `rag_service/utils/rabbitmq_consumer.py` (`RabbitMQConsumer.process_message`)
* `rag_service/utils/queue_manager.py` (`QueueManager.send_feedback_to_tap`)

Modelling conventions: machine floats are modelled as exact rationals,
Python exceptions as `Except String`, the Frappe document store as a list of
records, and external collaborators (context API, LLM, broker publish) as
oracle values describing the outcome of each call.
-/

namespace RagService

instance {ε α : Type} [DecidableEq ε] [DecidableEq α] : DecidableEq (Except ε α) := fun a b =>
  match a, b with
  | .ok x, .ok y =>
    if h : x = y then .isTrue (by rw [h]) else .isFalse (by intro hh; cases hh; exact h rfl)
  | .error x, .error y =>
    if h : x = y then .isTrue (by rw [h]) else .isFalse (by intro hh; cases hh; exact h rfl)
  | .ok _, .error _ => .isFalse (by intro h; cases h)
  | .error _, .ok _ => .isFalse (by intro h; cases h)

/-! ### Python-semantics helpers -/

/-- Python list indexing `l[i]`: a negative index is offset by `len(l)` once;
an index that is still out of range raises `IndexError`. -/
def pyGet {α : Type} (l : List α) (i : Int) : Except String α :=
  let j : Int := if i < 0 then i + l.length else i
  if j < 0 then .error "IndexError: list index out of range"
  else
    match l.get? j.toNat with
    | some a => .ok a
    | none => .error "IndexError: list index out of range"

/-- Helper for `pySplit`: walks the characters accumulating the current token
(in reverse); whitespace ends a token, empty tokens are dropped — this is the
behaviour of Python `str.split()` with no argument. -/
def pyTokensGo (cur : List Char) : List Char → List String
  | [] => if cur = [] then [] else [String.mk cur.reverse]
  | c :: rest =>
    if c.isWhitespace then
      if cur = [] then pyTokensGo [] rest
      else String.mk cur.reverse :: pyTokensGo [] rest
    else pyTokensGo (c :: cur) rest

/-- Python `s.split()` (no separator): split on runs of whitespace, never
producing empty tokens. -/
def pySplit (s : String) : List String :=
  pyTokensGo [] s.toList

/-- Decimal value of a digit/underscore character list, ignoring underscores
(underscore validity is checked separately by `validIntBody`). -/
def digitsVal (cs : List Char) : Nat :=
  cs.foldl (fun a c => if c = '_' then a else 10 * a + (c.toNat - '0'.toNat)) 0

/-- Helper for `validIntBody`: each later character is a digit, or an
underscore directly preceded by a digit; the final character must be a digit
(Python 3 integer-literal underscore grouping rules). -/
def validIntTail (prev : Char) : List Char → Bool
  | [] => prev.isDigit
  | c :: rest => (c.isDigit || (c = '_' && prev.isDigit)) && validIntTail c rest

/-- The digit part accepted by Python `int(str)` after the optional sign:
nonempty, starts and ends with an ASCII digit, underscores only singly and
between digits. (Unicode digits are out of scope of this model; the tokens the
code feeds in are ASCII.) -/
def validIntBody : List Char → Bool
  | [] => false
  | c :: rest => c.isDigit && validIntTail c rest

/-- Python `int(s)` on a whitespace-free token: optional `+`/`-` sign followed
by a valid digit body, else `ValueError`. -/
def pyInt (s : String) : Except String Int :=
  let cs := s.toList
  match cs with
  | '+' :: rest =>
    if validIntBody rest then .ok (digitsVal rest) else .error "ValueError: invalid literal for int"
  | '-' :: rest =>
    if validIntBody rest then .ok (-(digitsVal rest : Int)) else .error "ValueError: invalid literal for int"
  | rest =>
    if validIntBody rest then .ok (digitsVal rest) else .error "ValueError: invalid literal for int"

/-! ### `FeedbackProcessor.extract_grade` (feedback_processor.py:88-95) -/

/-- Body of the `try` block of `extract_grade`:
`grade_str = grade_recommendation.split()[0]; return int(grade_str)`.
`[0]` raises `IndexError` on an empty token list; `int` raises `ValueError` on
a non-integer token. -/
def extractGradeBody (grade_recommendation : String) : Except String Int :=
  match pyGet (pySplit grade_recommendation) 0 with
  | .ok grade_str => pyInt grade_str
  | .error e => .error e

/-- `FeedbackProcessor.extract_grade`: the `try` body with
`except (IndexError, ValueError): return 0`. The only exceptions the body can
produce are exactly those two, so the function is total. -/
def extract_grade (grade_recommendation : String) : Int :=
  match extractGradeBody grade_recommendation with
  | .ok n => n
  | .error _ => 0

/-! ### `FAISSManager` (core/vector_store.py) -/

/-- Embedding vectors; machine floats are modelled as exact rationals. -/
abbrev Vec := List ℚ

/-- Squared Euclidean (L2) distance, the metric of `faiss.IndexFlatL2`. -/
def sqDist (u v : Vec) : ℚ :=
  (List.zipWith (fun a b => (a - b) ^ 2) u v).sum

/-- Comparison used to order FAISS search results: ascending by distance. -/
def distLe (a b : ℚ × Int) : Prop := a.1 ≤ b.1

instance : DecidableRel distLe := fun a b => inferInstanceAs (Decidable (a.1 ≤ b.1))

instance : IsTotal (ℚ × Int) distLe := ⟨fun a b => le_total a.1 b.1⟩

instance : IsTrans (ℚ × Int) distLe := ⟨fun _ _ _ => le_trans⟩

/-- `FLT_MAX`, the distance FAISS reports for padding slots when fewer than
`k` stored vectors exist: `(2^24 - 1) * 2^104`. -/
def fltMax : ℚ := (2 ^ 24 - 1) * 2 ^ 104

/-- Semantics of `faiss.IndexFlatL2.search` for one query: every stored vector
is scored by squared-L2 distance against the query, the `k` best (ascending by
distance, ties kept in insertion order) are returned, and missing slots are
padded with label `-1` and distance `FLT_MAX`. -/
def faissSearch (xs : List Vec) (q : Vec) (k : Nat) : List (ℚ × Int) :=
  let scored := (List.range xs.length).map fun i => (sqDist q (xs.getD i []), (i : Int))
  let top := (List.insertionSort distLe scored).take k
  top ++ List.replicate (k - top.length) (fltMax, -1)

/-- The result loop of `FAISSManager.search_similar`: for each
`(distance, idx)` pair, `if idx < len(self.vector_ids)` the record named
`self.vector_ids[idx]` is appended (Python indexing: a negative `idx` wraps
around; dereferencing `frappe.get_doc` keeps the stored name as the reference
identity); an `IndexError` aborts the whole call and is re-raised. -/
def searchLoop (vector_ids : List String) : List (ℚ × Int) → Except String (List (String × ℚ))
  | [] => .ok []
  | (d, idx) :: rest =>
    if idx < (vector_ids.length : Int) then
      match pyGet vector_ids idx with
      | .ok name => (searchLoop vector_ids rest).map (fun res => (name, d) :: res)
      | .error e => .error e
    else searchLoop vector_ids rest

/-- The in-memory state of `FAISSManager`: the flat index contents and the
parallel `vector_ids` position-to-name mapping. -/
structure IndexState where
  vectors : List Vec
  vector_ids : List String
deriving Repr, DecidableEq

/-- `FAISSManager.search_similar(query_vector, k)`. -/
def search_similar (s : IndexState) (q : Vec) (k : Nat) : Except String (List (String × ℚ)) :=
  searchLoop s.vector_ids (faissSearch s.vectors q k)

/-- The loop of `FAISSManager._load_existing_vectors`: each stored record is
either loaded (`embedding_manager.load_embedding` succeeds, modelled `some v`)
and contributes its vector and name, or fails to load (`none`), is logged and
skipped. The vectors are batch-added to the fresh index afterwards, in order. -/
def loadLoop : List (String × Option Vec) → List Vec × List String
  | [] => ([], [])
  | (name, load) :: rest =>
    match load with
    | some v => ((loadLoop rest).1.cons v, (loadLoop rest).2.cons name)
    | none => loadLoop rest

/-- `initialize_index` on a cold start: a fresh `IndexFlatL2` populated by
`_load_existing_vectors` from the persisted records (given in increasing
creation order). -/
def rebuildFromStorage (records : List (String × Option Vec)) : IndexState :=
  ⟨(loadLoop records).1, (loadLoop records).2⟩

/-- `FAISSManager.add_vector(vector_store_name)`: load the record's embedding,
append it to the index and the name to `vector_ids`; a load failure is logged
and re-raised (nothing is appended). -/
def add_vector (s : IndexState) (name : String) (load : Option Vec) : Except String IndexState :=
  match load with
  | some v => .ok ⟨s.vectors ++ [v], s.vector_ids ++ [name]⟩
  | none => .error ("Error loading vector " ++ name)

/-- A sequence of live `add_vector` calls, one per persisted record in creation
order; a call whose embedding fails to load raises and leaves the index
unchanged (the caller moves on), matching the records skipped by a rebuild. -/
def liveAdds (s : IndexState) : List (String × Option Vec) → IndexState
  | [] => s
  | (name, load) :: rest =>
    match add_vector s name load with
    | .ok s' => liveAdds s' rest
    | .error _ => liveAdds s rest

/-! ### `AssignmentContextFetcher` (core/context_fetcher.py) and
`AssignmentContextManager` (core/assignment_context_manager.py) -/

/-- `self.max_retries = 3` (context_fetcher.py:19). -/
def maxRetries : Nat := 3

/-- `self.retry_delay = 1` second (context_fetcher.py:20). -/
def retryDelay : Nat := 1

/-- `_wait_before_retry(attempt)`: sleeps `retry_delay * (2 ** attempt)`
seconds (exponential backoff). -/
def waitBeforeRetry (attempt : Nat) : Nat := retryDelay * 2 ^ attempt

/-- Outcome of one HTTP attempt against the context API: a transport failure
(`httpx.RequestError`), or a response with a status code and a flag for
whether the JSON body carries the `message` field (the context payload is
abstracted to a string). -/
inductive ApiResp where
  | netErr (msg : String)
  | resp (status : Nat) (hasMessage : Bool) (ctx : String)
deriving Repr, DecidableEq

/-- Observable trace of a fetch: its result, how many attempts were entered,
and the backoff sleeps performed (in seconds). -/
structure FetchTrace where
  result : Except String String
  attemptsUsed : Nat
  waits : List Nat
deriving Repr, DecidableEq

/-- The retry loop of `AssignmentContextFetcher._fetch_from_api`
(context_fetcher.py:61-106), attempt by attempt. `f n` is the outcome of the
`n`-th HTTP attempt. Branches in source order:
* a 401 status raises `ValueError("Authentication failed ...")` *before*
  `raise_for_status`, so it is caught by the generic `except Exception`
  handler, which waits and retries;
* any other non-2xx status raises `httpx.HTTPStatusError`; codes in
  `[401, 403, 404]` break out of the loop (401 is unreachable here), others
  wait and retry;
* a body without `message` raises `ValueError` → generic handler → retry;
* `httpx.RequestError` waits and retries.
After the loop (break or exhaustion) the code raises
`Exception("Failed to fetch assignment context: {last_error}")`. -/
def fetchGo (f : Nat → ApiResp) : (fuel : Nat) → (attempt : Nat) → (lastError : String) →
    (waits : List Nat) → FetchTrace
  | 0, attempt, lastError, waits =>
    ⟨.error ("Failed to fetch assignment context: " ++ lastError), attempt, waits⟩
  | fuel + 1, attempt, _lastError, waits =>
    match f attempt with
    | .netErr m =>
      fetchGo f fuel (attempt + 1) ("Request error: " ++ m) (waits ++ [waitBeforeRetry attempt])
    | .resp status hasMsg ctx =>
      if status = 401 then
        fetchGo f fuel (attempt + 1) "Authentication failed - check API key and secret"
          (waits ++ [waitBeforeRetry attempt])
      else if status < 200 ∨ 300 ≤ status then
        let e := "HTTP error " ++ toString status
        if status = 401 ∨ status = 403 ∨ status = 404 then
          ⟨.error ("Failed to fetch assignment context: " ++ e), attempt + 1, waits⟩
        else fetchGo f fuel (attempt + 1) e (waits ++ [waitBeforeRetry attempt])
      else if hasMsg = false then
        fetchGo f fuel (attempt + 1) "Invalid response format from API"
          (waits ++ [waitBeforeRetry attempt])
      else ⟨.ok ctx, attempt + 1, waits⟩

/-- `AssignmentContextFetcher._fetch_from_api(assignment_id)`: the loop runs
for `attempt in range(max_retries)`, so the remaining-iteration fuel starts at
`maxRetries`. -/
def fetchFromApi (f : Nat → ApiResp) : FetchTrace :=
  fetchGo f maxRetries 0 "" []

/-- `_cache_context`: upsert of the fetched context keyed by assignment id
(insert if absent, update in place if present; the version bump is carried by
the stored payload, abstracted here). -/
def cacheContext (db : List (String × String)) (aid ctx : String) : List (String × String) :=
  if db.any (fun p => p.1 = aid) then db.map (fun p => if p.1 = aid then (aid, ctx) else p)
  else db ++ [(aid, ctx)]

/-- `AssignmentContextFetcher.get_assignment_context` with caching enabled:
a live cached entry (`cachedHit`) is returned as-is; otherwise the API fetch
runs, and only a successful fetch is written to the cache — a fetch error is
re-raised with the cache untouched. -/
def getAssignmentContext (cachedHit : Option String) (f : Nat → ApiResp)
    (cacheDb : List (String × String)) (aid : String) :
    Except String String × List (String × String) :=
  match cachedHit with
  | some c => (.ok c, cacheDb)
  | none =>
    match (fetchFromApi f).result with
    | .ok ctx => (.ok ctx, cacheContext cacheDb aid ctx)
    | .error e => (.error e, cacheDb)

/-- `AssignmentContextManager._fetch_from_api`
(assignment_context_manager.py:60-99): a single `requests.post` with no retry
loop — exactly one attempt is consumed, no backoff sleeps occur. -/
def managerFetchFromApi (f : Nat → ApiResp) : FetchTrace :=
  match f 0 with
  | .netErr m => ⟨.error ("API request failed: " ++ m), 1, []⟩
  | .resp status hasMsg ctx =>
    if status ≠ 200 then ⟨.error ("API request failed with status " ++ toString status), 1, []⟩
    else if hasMsg = false then ⟨.error "Invalid API response format", 1, []⟩
    else ⟨.ok ctx, 1, []⟩

/-! ### The FeedbackRequest store and the `FeedbackHandler` /
`FeedbackProcessor` state machine -/

/-- The structured feedback returned by the generative model, with the six
required fields (lists abstracted to their elements' rendered strings). -/
structure Feedback where
  overall_feedback : String
  strengths : List String
  areas_for_improvement : List String
  learning_objectives_feedback : List String
  grade_recommendation : String
  encouragement : String
deriving Repr, DecidableEq

/-- A persisted `Feedback Request` document (doctype fields as used by the
code; timestamps are abstract ticks, the JSON-serialised `similar_sources`
and `generated_feedback` strings are modelled structurally). -/
structure FeedbackRequest where
  name : String
  submission_id : String
  student_id : String
  assignment_id : String
  submission_content : String
  plagiarism_score : ℚ
  similar_sources : List (String × ℚ)
  status : String
  processing_attempts : Nat
  generated_feedback : Option Feedback
  feedback_summary : Option String
  grade_recommendation : Option String
  error_log : Option String
  created_at : Nat
  completed_at : Option Nat
deriving Repr, DecidableEq

/-- `frappe.get_doc("Feedback Request", rid)`: the first stored document with
that name, or `DoesNotExistError`. -/
def getDoc (db : List FeedbackRequest) (rid : String) : Except String FeedbackRequest :=
  match db.find? (fun r => r.name = rid) with
  | some r => .ok r
  | none => .error "DoesNotExistError"

/-- `doc.save()` on an existing document: replace the stored document(s)
bearing this name, in place. -/
def saveDoc (db : List FeedbackRequest) (r : FeedbackRequest) : List FeedbackRequest :=
  db.map fun x => if x.name = r.name then r else x

/-- A validated inbound queue message (all four required fields present;
`plagiarism_score` and `similar_sources` stay optional). -/
structure InboundMsg where
  submission_id : String
  student_id : String
  assignment_id : String
  img_url : String
  plagiarism_score : Option ℚ
  similar_sources : Option (List (String × ℚ))
deriving Repr, DecidableEq

/-- `FeedbackHandler.create_feedback_request` (feedback_handler.py:62-115):
look up existing requests with this `submission_id`; if one exists, increment
its `processing_attempts`, set status `Processing` and clear `error_log` on
the *same* document; otherwise insert a new document with
`processing_attempts = 1`. Returns the document name. -/
def create_feedback_request (db : List FeedbackRequest) (msg : InboundMsg) (newName : String)
    (now : Nat) : String × List FeedbackRequest :=
  match db.filter (fun r => r.submission_id = msg.submission_id) with
  | r :: _ =>
    let r' := { r with
      processing_attempts := r.processing_attempts + 1
      status := "Processing"
      error_log := none }
    (r.name, saveDoc db r')
  | [] =>
    let r : FeedbackRequest := {
      name := newName
      submission_id := msg.submission_id
      student_id := msg.student_id
      assignment_id := msg.assignment_id
      submission_content := msg.img_url
      plagiarism_score := msg.plagiarism_score.getD 0
      similar_sources := msg.similar_sources.getD []
      status := "Processing"
      processing_attempts := 1
      generated_feedback := none
      feedback_summary := none
      grade_recommendation := none
      error_log := none
      created_at := now
      completed_at := none }
    (newName, db ++ [r])

/-- `FeedbackHandler.mark_request_failed` (feedback_handler.py:117-139): set
status `Failed`, record the error and `completed_at`; any exception (e.g. the
document does not exist) is logged and swallowed, leaving the store as it
was. -/
def handlerMarkRequestFailed (db : List FeedbackRequest) (rid errMsg : String) (now : Nat) :
    List FeedbackRequest :=
  match getDoc db rid with
  | .ok r => saveDoc db { r with
      status := "Failed"
      error_log := some errMsg
      completed_at := some now }
  | .error _ => db

/-- Body of the `try` block of `FeedbackProcessor.mark_request_failed`
(feedback_processor.py:97-116): fetch the document (this raises
`DoesNotExistError` when absent) and save it as `Failed` with the error and
`completed_at` recorded. -/
def processorMarkBody (db : List FeedbackRequest) (rid errMsg : String) (now : Nat) :
    Except String (List FeedbackRequest) :=
  match getDoc db rid with
  | .error e => .error e
  | .ok r => .ok (saveDoc db { r with
      status := "Failed"
      error_log := some errMsg
      completed_at := some now })

/-- `FeedbackProcessor.mark_request_failed`: the body with a blanket
`except Exception` that only logs — the exception is swallowed, the caller is
not signalled, and the store keeps its previous contents. -/
def processorMarkRequestFailed (db : List FeedbackRequest) (rid errMsg : String) (now : Nat) :
    List FeedbackRequest :=
  match processorMarkBody db rid errMsg now with
  | .ok db' => db'
  | .error _ => db

/-- JSON values, for the outbound queue payload. -/
inductive Json where
  | str (s : String)
  | int (n : Int)
  | num (q : ℚ)
  | jbool (b : Bool)
  | null
  | arr (xs : List Json)
  | obj (fields : List (String × Json))

/-- Keys of a JSON object payload, in insertion order. -/
def jsonKeys (fields : List (String × Json)) : List String := fields.map Prod.fst

/-- Python `str(...)` of an optional timestamp (`str(None) = "None"`). -/
def pyStrOfOpt (o : Option Nat) : String :=
  match o with
  | none => "None"
  | some n => toString n

/-- `FeedbackProcessor.update_feedback_request` (feedback_processor.py:36-59):
set status `Completed`, store the generated feedback, its summary and grade
recommendation, set `completed_at` and clear `error_log`. -/
def update_feedback_request (db : List FeedbackRequest) (rid : String) (feedback : Feedback)
    (now : Nat) : Except String (List FeedbackRequest) :=
  match getDoc db rid with
  | .error e => .error e
  | .ok r => .ok (saveDoc db { r with
      status := "Completed"
      generated_feedback := some feedback
      feedback_summary := some feedback.overall_feedback
      grade_recommendation := some feedback.grade_recommendation
      completed_at := some now
      error_log := none })

/-- `FeedbackProcessor.prepare_tap_feedback` (feedback_processor.py:61-86):
the outbound payload built from the stored request and the feedback dict —
`submission_id`, `student_id`, `assignment_id`, the six-field `feedback`
object, `generated_at = str(completed_at)` and the parsed numeric `grade`. -/
def prepare_tap_feedback (db : List FeedbackRequest) (rid : String) (feedback : Feedback) :
    Except String (List (String × Json)) :=
  match getDoc db rid with
  | .error e => .error e
  | .ok r => .ok [
    ("submission_id", .str r.submission_id),
    ("student_id", .str r.student_id),
    ("assignment_id", .str r.assignment_id),
    ("feedback", .obj [
      ("overall_feedback", .str feedback.overall_feedback),
      ("strengths", .arr (feedback.strengths.map .str)),
      ("areas_for_improvement", .arr (feedback.areas_for_improvement.map .str)),
      ("learning_objectives_feedback", .arr (feedback.learning_objectives_feedback.map .str)),
      ("grade_recommendation", .str feedback.grade_recommendation),
      ("encouragement", .str feedback.encouragement)]),
    ("generated_at", .str (pyStrOfOpt r.completed_at)),
    ("grade", .int (extract_grade feedback.grade_recommendation))]

/-- `QueueManager.send_feedback_to_tap` (queue_manager.py:65-99): the message
published is the payload dict merged with a `sent_at` timestamp and the fixed
`service = "RAG"` tag (the payload itself carries neither key, so the merge
appends them); a broker failure raises. On success the published message is
returned for inspection. -/
def send_feedback_to_tap (payload : List (String × Json)) (publish : Except String Unit)
    (sentAt : String) : Except String (List (String × Json)) :=
  let message := payload ++ [("sent_at", .str sentAt), ("service", .str "RAG")]
  match publish with
  | .ok _ => .ok message
  | .error e => .error e

/-- `FeedbackProcessor.process_feedback` (feedback_processor.py:13-34):
update the request to `Completed`, prepare the outbound payload, publish it;
any exception marks the request `Failed` (via the processor's swallowing
`mark_request_failed`) and is then re-raised. Returns the outcome together
with the resulting store. -/
def process_feedback (db : List FeedbackRequest) (rid : String) (feedback : Feedback)
    (publish : Except String Unit) (now : Nat) (sentAt : String) :
    Except String (List (String × Json)) × List FeedbackRequest :=
  match update_feedback_request db rid feedback now with
  | .error e => (.error e, processorMarkRequestFailed db rid e now)
  | .ok db1 =>
    match prepare_tap_feedback db1 rid feedback with
    | .error e => (.error e, processorMarkRequestFailed db1 rid e now)
    | .ok payload =>
      match send_feedback_to_tap payload publish sentAt with
      | .error e => (.error e, processorMarkRequestFailed db1 rid e now)
      | .ok msg => (.ok msg, db1)

/-- Outcomes of the external collaborators during one orchestration attempt:
the context fetch (`ok none` models a falsy/empty context), the generative
model call, and the broker publish. -/
structure Oracles where
  contextFetch : Except String (Option String)
  llm : Except String Feedback
  publish : Except String Unit
deriving Repr, DecidableEq

/-- `FeedbackHandler.handle_submission` (feedback_handler.py:19-60):
create/update the request, fetch the assignment context (a falsy context
raises `ValueError`), generate feedback, process and deliver it. Any
exception is caught at the handler boundary, the request is marked `Failed`
when it exists (it always does once `create_feedback_request` returned), and
the exception is then *re-raised* to the caller. -/
def handle_submission (db : List FeedbackRequest) (msg : InboundMsg) (orc : Oracles)
    (newName : String) (now : Nat) (sentAt : String) :
    Except String Unit × List FeedbackRequest :=
  let (rid, db1) := create_feedback_request db msg newName now
  match orc.contextFetch with
  | .error e => (.error e, handlerMarkRequestFailed db1 rid e now)
  | .ok none =>
    let e := "Could not get context for assignment: " ++ msg.assignment_id
    (.error e, handlerMarkRequestFailed db1 rid e now)
  | .ok (some _ctx) =>
    match orc.llm with
    | .error e => (.error e, handlerMarkRequestFailed db1 rid e now)
    | .ok feedback =>
      match process_feedback db1 rid feedback orc.publish now sentAt with
      | (.error e, db2) => (.error e, handlerMarkRequestFailed db2 rid e now)
      | (.ok _msg, db2) => (.ok (), db2)

/-- `FeedbackHandler.retry_failed_request` (feedback_handler.py:175-207):
re-process an existing request, but only when it is in `Failed` state with
`processing_attempts < 3`; otherwise raise `ValueError` without touching
anything. -/
def retry_failed_request (db : List FeedbackRequest) (rid : String) (orc : Oracles)
    (newName : String) (now : Nat) (sentAt : String) :
    Except String Unit × List FeedbackRequest :=
  match getDoc db rid with
  | .error e => (.error e, db)
  | .ok r =>
    if r.status ≠ "Failed" then
      (.error ("Request " ++ rid ++ " is not in failed state"), db)
    else if 3 ≤ r.processing_attempts then
      (.error ("Maximum retry attempts reached for request " ++ rid), db)
    else
      let msg : InboundMsg := {
        submission_id := r.submission_id
        student_id := r.student_id
        assignment_id := r.assignment_id
        img_url := r.submission_content
        plagiarism_score := some r.plagiarism_score
        similar_sources := some r.similar_sources }
      handle_submission db msg orc newName now sentAt

/-! ### `RabbitMQConsumer.process_message` (utils/rabbitmq_consumer.py:100-171) -/

/-- Consumer decisions on a delivery: `basic_ack`, `basic_nack` with
`requeue=True`, or `basic_nack` with `requeue=False`. -/
inductive ConsumerOutcome where
  | ack
  | nackRequeue
  | nackNoRequeue
deriving Repr, DecidableEq

/-- A parsed inbound JSON body as a dict whose expected keys may each be
absent (`json.loads` succeeded; field presence not yet validated). -/
structure RawMsg where
  submission_id : Option String
  student_id : Option String
  assignment_id : Option String
  img_url : Option String
  plagiarism_score : Option ℚ
  similar_sources : Option (List (String × ℚ))
deriving Repr, DecidableEq

/-- The `missing_fields` computation over
`required_fields = ["submission_id", "student_id", "assignment_id", "img_url"]`. -/
def missingFields (m : RawMsg) : List String :=
  (if m.submission_id = none then ["submission_id"] else []) ++
  (if m.student_id = none then ["student_id"] else []) ++
  (if m.assignment_id = none then ["assignment_id"] else []) ++
  (if m.img_url = none then ["img_url"] else [])

/-- `RabbitMQConsumer.process_message`: `body = none` models a
`json.JSONDecodeError` from `json.loads` → nack without requeue; a message
with missing required fields → nack without requeue; otherwise
`handle_submission` runs — success is acknowledged, while an exception from
the handler is caught and the message is nacked *with* requeue. The store is
returned alongside the broker decision. -/
def process_message (body : Option RawMsg) (db : List FeedbackRequest) (orc : Oracles)
    (newName : String) (now : Nat) (sentAt : String) :
    ConsumerOutcome × List FeedbackRequest :=
  match body with
  | none => (.nackNoRequeue, db)
  | some m =>
    if missingFields m ≠ [] then (.nackNoRequeue, db)
    else
      match m.submission_id, m.student_id, m.assignment_id, m.img_url with
      | some sid, some stid, some aid, some url =>
        let msg : InboundMsg := ⟨sid, stid, aid, url, m.plagiarism_score, m.similar_sources⟩
        match handle_submission db msg orc newName now sentAt with
        | (.ok _, db') => (.ack, db')
        | (.error _, db') => (.nackRequeue, db')
      | _, _, _, _ => (.nackNoRequeue, db)  -- unreachable: guarded by missingFields

/-! ### Concrete fixtures used by witnesses and counterexamples -/

/-- A fully-populated inbound message, as parsed from JSON. -/
def exRaw : RawMsg := ⟨some "s1", some "st1", some "a1", some "img://x", none, none⟩

/-- The same message after validation. -/
def exMsg : InboundMsg := ⟨"s1", "st1", "a1", "img://x", none, none⟩

/-- External outcomes for an attempt whose context fetch fails. -/
def orcCtxFail : Oracles := ⟨.error "API down", .error "unused", .ok ()⟩

/-- A model response carrying all six required fields. -/
def exFb : Feedback := ⟨"85 out of 100, good", ["s"], ["a"], ["l"], "85 out of 100", "enc"⟩

/-- External outcomes for a fully successful attempt. -/
def orcOk : Oracles := ⟨.ok (some "ctx"), .ok exFb, .ok ()⟩

/-- The stored record right after a first `create_feedback_request` of
`exMsg` at tick 5 under name `FR-1`. -/
def frNew : FeedbackRequest :=
  ⟨"FR-1", "s1", "st1", "a1", "img://x", 0, [], "Processing", 1, none, none, none, none, 5, none⟩

/-- A record that has already failed three times (`attempt_count = 3`,
terminal `Failed` per the spec's state machine). -/
def fr3 : FeedbackRequest :=
  ⟨"FR-1", "s1", "st1", "a1", "img://x", 0, [], "Failed", 3, none, none, none, some "old", 1, some 2⟩

/-- A completed record, for the outbound-payload claims. -/
def exReq : FeedbackRequest := { fr3 with status := "Completed", completed_at := some 7 }

/-- The three-vector corpus of the spec's distance-ordering example:
`a = [1,0]`, `b = [0,1]`, `c = [0.9, 0.1]`. -/
def exCorpus : IndexState := ⟨[[1, 0], [0, 1], [9/10, 1/10]], ["a", "b", "c"]⟩

/-! ## Store lemmas -/

theorem getDoc_ok_mem {db : List FeedbackRequest} {rid : String} {r : FeedbackRequest}
    (h : getDoc db rid = .ok r) : r ∈ db ∧ r.name = rid := by
  unfold getDoc at h
  cases hf : db.find? (fun x => x.name = rid) with
  | none => rw [hf] at h; cases h
  | some x =>
    rw [hf] at h
    cases h
    exact ⟨List.mem_of_find?_eq_some hf, by simpa using List.find?_some hf⟩

theorem find?_saveDoc {db : List FeedbackRequest} (r' : FeedbackRequest)
    (h : ∃ x ∈ db, x.name = r'.name) :
    (saveDoc db r').find? (fun x => x.name = r'.name) = some r' := by
  induction db with
  | nil => obtain ⟨x, hx, _⟩ := h; cases hx
  | cons a as ih =>
    by_cases ha : a.name = r'.name
    · simp only [saveDoc, List.map_cons, if_pos ha]
      exact List.find?_cons_of_pos _ (by simp)
    · have h' : ∃ x ∈ as, x.name = r'.name := by
        obtain ⟨x, hx, hxe⟩ := h
        cases List.mem_cons.mp hx with
        | inl he => exact absurd (he ▸ hxe) ha
        | inr hm => exact ⟨x, hm, hxe⟩
      have hrec := ih h'
      simp only [saveDoc, List.map_cons, if_neg ha] at *
      rw [List.find?_cons_of_neg _ (by simp [ha])]
      exact hrec

theorem getDoc_saveDoc_of_mem {db : List FeedbackRequest} (r' : FeedbackRequest)
    (h : ∃ x ∈ db, x.name = r'.name) : getDoc (saveDoc db r') r'.name = .ok r' := by
  unfold getDoc
  rw [find?_saveDoc r' h]

theorem getDoc_append_fresh {db : List FeedbackRequest} {nn : String} (r : FeedbackRequest)
    (hfresh : ∀ x ∈ db, x.name ≠ nn) (hr : r.name = nn) : getDoc (db ++ [r]) nn = .ok r := by
  induction db with
  | nil => simp [getDoc, hr]
  | cons a as ih =>
    have ha : a.name ≠ nn := hfresh a (by simp)
    have hrec := ih (fun x hx => hfresh x (by simp [hx]))
    unfold getDoc at *
    rw [List.cons_append, List.find?_cons_of_neg _ (by simp [ha])]
    exact hrec

theorem create_found (db : List FeedbackRequest) (msg : InboundMsg) (nn : String) (now : Nat)
    (hfresh : ∀ x ∈ db, x.name ≠ nn) :
    ∃ r0, getDoc (create_feedback_request db msg nn now).2
        (create_feedback_request db msg nn now).1 = .ok r0 ∧
      r0.submission_id = msg.submission_id ∧ r0.status = "Processing" ∧ r0.error_log = none := by
  unfold create_feedback_request
  cases hflt : db.filter (fun r => r.submission_id = msg.submission_id) with
  | cons r rest =>
    have hmem : r ∈ db.filter (fun r => r.submission_id = msg.submission_id) := by
      rw [hflt]; exact List.mem_cons_self ..
    have hsid : r.submission_id = msg.submission_id := by
      simpa using (List.mem_filter.mp hmem).2
    have hrdb : r ∈ db := (List.mem_filter.mp hmem).1
    refine ⟨{ r with processing_attempts := r.processing_attempts + 1, status := "Processing", error_log := none }, ?_, hsid, rfl, rfl⟩
    exact getDoc_saveDoc_of_mem
      { r with processing_attempts := r.processing_attempts + 1, status := "Processing", error_log := none }
      ⟨r, hrdb, rfl⟩
  | nil =>
    exact ⟨_, getDoc_append_fresh _ hfresh rfl, rfl, rfl, rfl⟩

theorem handlerMark_found {db : List FeedbackRequest} {rid : String} {r0 : FeedbackRequest}
    (h : getDoc db rid = .ok r0) (e : String) (now : Nat) :
    getDoc (handlerMarkRequestFailed db rid e now) rid =
      .ok { r0 with status := "Failed", error_log := some e, completed_at := some now } := by
  obtain ⟨hmem, hname⟩ := getDoc_ok_mem h
  unfold handlerMarkRequestFailed
  rw [h]
  have : getDoc (saveDoc db { r0 with status := "Failed", error_log := some e, completed_at := some now }) r0.name = .ok { r0 with status := "Failed", error_log := some e, completed_at := some now } :=
    getDoc_saveDoc_of_mem
      { r0 with status := "Failed", error_log := some e, completed_at := some now }
      ⟨r0, hmem, by simp⟩
  simpa [hname] using this

/-! ## Claims -/

/-- C10. `FeedbackProcessor.mark_request_failed` returns normally even when
the underlying update raises (here: no record with the given id exists): the
`try` body raises `DoesNotExistError`, the handler swallows it, and the store
is returned unchanged — the caller is never signalled. -/
theorem mark_request_failed_swallows (db : List FeedbackRequest) (rid e : String) (now : Nat)
    (habsent : db.find? (fun r => r.name = rid) = none) :
    processorMarkBody db rid e now = .error "DoesNotExistError" ∧
      processorMarkRequestFailed db rid e now = db := by
  have hbody : processorMarkBody db rid e now = .error "DoesNotExistError" := by
    simp [processorMarkBody, getDoc, habsent, Except.bind]
  exact ⟨hbody, by simp [processorMarkRequestFailed, hbody]⟩

/-- C10 witness: on an empty store (`FR-9` does not exist) the update body
raises and `mark_request_failed` still returns the store unchanged. -/
theorem mark_request_failed_swallows_witness :
    processorMarkBody [] "FR-9" "err" 3 = .error "DoesNotExistError" ∧
      processorMarkRequestFailed [] "FR-9" "err" 3 = [] :=
  mark_request_failed_swallows [] "FR-9" "err" 3 (by decide)

/-- C8. A delivery whose body is malformed JSON (`body = none`) or whose
parsed message lacks a required field is nacked without requeue, and the
store is returned untouched — no FeedbackRequest record is created. -/
theorem invalid_message_rejected_no_record (body : Option RawMsg) (db : List FeedbackRequest)
    (orc : Oracles) (nn : String) (now : Nat) (sa : String)
    (hbad : body = none ∨ ∃ m, body = some m ∧ missingFields m ≠ []) :
    process_message body db orc nn now sa = (.nackNoRequeue, db) := by
  cases hbad with
  | inl h => simp [process_message, h]
  | inr h =>
    obtain ⟨m, hm, hmiss⟩ := h
    simp [process_message, hm, hmiss]

/-- C8 witness: a message missing `assignment_id`, and a malformed body, are
both rejected without requeue and create no record. -/
theorem invalid_message_rejected_no_record_witness :
    process_message (some { exRaw with assignment_id := none }) [] orcOk "FR-1" 5 "t" =
        (.nackNoRequeue, []) ∧
      process_message none [] orcOk "FR-1" 5 "t" = (.nackNoRequeue, []) :=
  ⟨invalid_message_rejected_no_record _ [] orcOk "FR-1" 5 "t"
      (.inr ⟨_, rfl, by decide⟩),
    invalid_message_rejected_no_record none [] orcOk "FR-1" 5 "t" (.inl rfl)⟩

/-- C9. `extract_grade` is total on strings (the only exceptions its body can
raise, `IndexError` and `ValueError`, are caught): it returns the integer
parsed from the first whitespace-separated token, and `0` when the string has
no tokens or the first token is not a valid integer literal. -/
theorem extract_grade_total_spec (s : String) :
    (pySplit s = [] → extract_grade s = 0) ∧
      (∀ t ts, pySplit s = t :: ts →
        (∀ n, pyInt t = .ok n → extract_grade s = n) ∧
        (∀ e, pyInt t = .error e → extract_grade s = 0)) := by
  constructor
  · intro h
    simp [extract_grade, extractGradeBody, h, pyGet, Except.bind]
  · intro t ts h
    have hget : pyGet (pySplit s) 0 = .ok t := by simp [pyGet, h]
    constructor
    · intro n hn
      simp [extract_grade, extractGradeBody, hget, Except.bind, hn]
    · intro e he
      simp [extract_grade, extractGradeBody, hget, Except.bind, he]

/-- C9 witness: a well-formed recommendation parses to its leading grade; an
empty string and a non-numeric token yield 0. -/
theorem extract_grade_total_spec_witness :
    extract_grade "85 out of 100, for strong work" = 85 ∧
      extract_grade "" = 0 ∧ extract_grade "N/A grade" = 0 := by
  refine ⟨?_, ?_, ?_⟩
  · exact ((extract_grade_total_spec "85 out of 100, for strong work").2 "85"
      ["out", "of", "100,", "for", "strong", "work"] (by decide)).1 85 (by decide)
  · exact (extract_grade_total_spec "").1 (by decide)
  · exact ((extract_grade_total_spec "N/A grade").2 "N/A" ["grade"] (by decide)).2
      "ValueError: invalid literal for int" (by decide)

theorem create_of_filter_nil (db : List FeedbackRequest) (msg : InboundMsg) (nn : String)
    (now : Nat) (h : db.filter (fun r => r.submission_id = msg.submission_id) = []) :
    create_feedback_request db msg nn now =
      (nn, db ++ [⟨nn, msg.submission_id, msg.student_id, msg.assignment_id, msg.img_url,
        msg.plagiarism_score.getD 0, msg.similar_sources.getD [], "Processing", 1,
        none, none, none, none, now, none⟩]) := by
  unfold create_feedback_request
  rw [h]

theorem create_of_filter_cons (db : List FeedbackRequest) (msg : InboundMsg) (nn : String)
    (now : Nat) (r : FeedbackRequest) (rest : List FeedbackRequest)
    (h : db.filter (fun x => x.submission_id = msg.submission_id) = r :: rest) :
    create_feedback_request db msg nn now =
      (r.name, saveDoc db { r with processing_attempts := r.processing_attempts + 1, status := "Processing", error_log := none }) := by
  unfold create_feedback_request
  rw [h]

/-- C3. Two inbound messages with the same `submission_id`, the second
delivered before the first attempt completes, leave exactly one
FeedbackRequest record for that id: the second delivery updates the same
record (status `Processing`, cleared error) and `attempt_count` reflects both
deliveries (`processing_attempts = 2`). -/
theorem duplicate_submission_single_record (db : List FeedbackRequest) (msg1 msg2 : InboundMsg)
    (nn1 nn2 : String) (now1 now2 : Nat)
    (hsid : msg2.submission_id = msg1.submission_id)
    (hnone : db.filter (fun r => r.submission_id = msg1.submission_id) = [])
    (hfresh : ∀ x ∈ db, x.name ≠ nn1) :
    ∃ r, ((create_feedback_request (create_feedback_request db msg1 nn1 now1).2
          msg2 nn2 now2).2).filter (fun x => x.submission_id = msg1.submission_id) = [r] ∧
      r.processing_attempts = 2 ∧ r.status = "Processing" ∧ r.error_log = none := by
  have h1 := create_of_filter_nil db msg1 nn1 now1 hnone
  set new1 : FeedbackRequest := ⟨nn1, msg1.submission_id, msg1.student_id, msg1.assignment_id,
    msg1.img_url, msg1.plagiarism_score.getD 0, msg1.similar_sources.getD [], "Processing", 1,
    none, none, none, none, now1, none⟩ with hnew1
  have hdb1 : (create_feedback_request db msg1 nn1 now1).2 = db ++ [new1] := by rw [h1]
  have hflt1 : (db ++ [new1]).filter (fun x => x.submission_id = msg2.submission_id) =
      new1 :: [] := by
    rw [List.filter_append]
    rw [hsid]
    rw [hnone]
    simp [hnew1]
  have h2 := create_of_filter_cons (db ++ [new1]) msg2 nn2 now2 new1 [] hflt1
  set new2 : FeedbackRequest :=
    { new1 with processing_attempts := new1.processing_attempts + 1, status := "Processing", error_log := none } with hnew2
  have hdb2 : (create_feedback_request (create_feedback_request db msg1 nn1 now1).2
      msg2 nn2 now2).2 = saveDoc (db ++ [new1]) new2 := by
    rw [hdb1, h2]
  have hsave : saveDoc (db ++ [new1]) new2 = db ++ [new2] := by
    unfold saveDoc
    rw [List.map_append]
    have hmapdb : db.map (fun x => if x.name = new2.name then new2 else x) = db := by
      have : ∀ x ∈ db, (fun x => if x.name = new2.name then new2 else x) x = id x := by
        intro x hx
        have : x.name ≠ nn1 := hfresh x hx
        simp [this, hnew2, hnew1]
      rw [List.map_congr_left this, List.map_id]
    rw [hmapdb]
    simp [hnew2]
  refine ⟨new2, ?_, rfl, rfl, rfl⟩
  rw [hdb2, hsave, List.filter_append, hnone]
  simp [hnew2, hnew1]

/-- C3 witness: from an empty store, the duplicate of `exMsg` yields exactly
one record with two attempts. -/
theorem duplicate_submission_single_record_witness :
    ∃ r, ((create_feedback_request (create_feedback_request [] exMsg "FR-1" 5).2
          exMsg "FR-2" 6).2).filter (fun x => x.submission_id = exMsg.submission_id) = [r] ∧
      r.processing_attempts = 2 ∧ r.status = "Processing" ∧ r.error_log = none :=
  duplicate_submission_single_record [] exMsg exMsg "FR-1" "FR-2" 5 6 rfl (by decide)
    (by intro x hx; cases hx)

/-- C2 counterexample: a 4th inbound message for a submission whose record is
terminal `Failed` with `attempt_count = 3` *is* fully reprocessed: the upsert
re-enters `Processing` with `attempt_count = 4`, and with healthy
dependencies the attempt runs to `Completed` and the message is acked —
contradicting "does not trigger a 4th processing attempt". -/
theorem fourth_message_reprocessed :
    (create_feedback_request [fr3] exMsg "FR-2" 9).2 =
        [{ fr3 with processing_attempts := 4, status := "Processing", error_log := none }] ∧
      process_message (some exRaw) [fr3] orcOk "FR-2" 9 "t" =
        (.ack, [{ fr3 with
          status := "Completed"
          processing_attempts := 4
          generated_feedback := some exFb
          feedback_summary := some "85 out of 100, good"
          grade_recommendation := some "85 out of 100"
          completed_at := some 9
          error_log := none }]) := by
  constructor
  · decide
  · decide

/-- C2 (amended). The inbound path enforces no retry bound: whenever a record
for the submission id exists — whatever its `attempt_count` —
`create_feedback_request` increments the count and re-enters `Processing`.
Only the explicit `retry_failed_request` path is bounded: on a `Failed`
record with `attempt_count >= 3` it deterministically raises
`ValueError("Maximum retry attempts reached ...")` and leaves the store
unchanged, without re-entering `Processing`. -/
theorem retry_bound_only_on_explicit_retry :
    (∀ (db : List FeedbackRequest) (msg : InboundMsg) (nn : String) (now : Nat)
        (r : FeedbackRequest) (rest : List FeedbackRequest),
      db.filter (fun x => x.submission_id = msg.submission_id) = r :: rest →
      ∃ r', getDoc (create_feedback_request db msg nn now).2
          (create_feedback_request db msg nn now).1 = .ok r' ∧
        r'.processing_attempts = r.processing_attempts + 1 ∧ r'.status = "Processing") ∧
    (∀ (db : List FeedbackRequest) (rid : String) (r : FeedbackRequest) (orc : Oracles)
        (nn : String) (now : Nat) (sa : String),
      getDoc db rid = .ok r → r.status = "Failed" → 3 ≤ r.processing_attempts →
      retry_failed_request db rid orc nn now sa =
        (.error ("Maximum retry attempts reached for request " ++ rid), db)) := by
  constructor
  · intro db msg nn now r rest h
    have hc := create_of_filter_cons db msg nn now r rest h
    have hmem : r ∈ db := (List.mem_filter.mp (by rw [h]; exact List.mem_cons_self ..)).1
    refine ⟨{ r with processing_attempts := r.processing_attempts + 1, status := "Processing", error_log := none }, ?_, rfl, rfl⟩
    rw [hc]
    exact getDoc_saveDoc_of_mem
      { r with processing_attempts := r.processing_attempts + 1, status := "Processing", error_log := none }
      ⟨r, hmem, rfl⟩
  · intro db rid r orc nn now sa hget hs h3
    unfold retry_failed_request
    rw [hget]
    simp [hs, h3]

/-- C2 witness: for the thrice-failed record `fr3`, the inbound upsert moves
it to 4 attempts in `Processing`, while the explicit retry path rejects. -/
theorem retry_bound_only_on_explicit_retry_witness :
    (∃ r', getDoc (create_feedback_request [fr3] exMsg "FR-2" 9).2
        (create_feedback_request [fr3] exMsg "FR-2" 9).1 = .ok r' ∧
      r'.processing_attempts = fr3.processing_attempts + 1 ∧ r'.status = "Processing") ∧
    retry_failed_request [fr3] "FR-1" orcOk "FR-2" 9 "t" =
      (.error ("Maximum retry attempts reached for request " ++ "FR-1"), [fr3]) :=
  ⟨retry_bound_only_on_explicit_retry.1 [fr3] exMsg "FR-2" 9 fr3 [] (by decide),
    retry_bound_only_on_explicit_retry.2 [fr3] "FR-1" fr3 orcOk "FR-2" 9 "t"
      (by decide) (by decide) (by decide)⟩

/-- C1 counterexample: on a valid message whose context fetch fails, the
consumer does *not* acknowledge the message — the handler re-raises after
recording the failure and `process_message` nacks with `requeue=True`. -/
theorem context_failure_not_acked :
    (process_message (some exRaw) [] orcCtxFail "FR-1" 5 "t").1 = ConsumerOutcome.nackRequeue ∧
      (process_message (some exRaw) [] orcCtxFail "FR-1" 5 "t").1 ≠ ConsumerOutcome.ack := by
  constructor
  · decide
  · decide

/-- C1 (amended). For every valid inbound message whose context fetch fails,
the failure *is* recorded on the FeedbackRequest (status `Failed`, error set),
but the exception is re-raised through the handler boundary and the consumer
negatively acknowledges the message *with* requeue instead of acking it. -/
theorem failure_recorded_then_requeued (db : List FeedbackRequest) (m : RawMsg)
    (sid stid aid url : String) (orc : Oracles) (nn : String) (now : Nat) (sa : String)
    (e : String)
    (h1 : m.submission_id = some sid) (h2 : m.student_id = some stid)
    (h3 : m.assignment_id = some aid) (h4 : m.img_url = some url)
    (hctx : orc.contextFetch = .error e)
    (hfresh : ∀ x ∈ db, x.name ≠ nn) :
    (process_message (some m) db orc nn now sa).1 = .nackRequeue ∧
      ∃ r ∈ (process_message (some m) db orc nn now sa).2,
        r.submission_id = sid ∧ r.status = "Failed" ∧ r.error_log = some e := by
  obtain ⟨f1, f2, f3, f4, f5, f6⟩ := m
  have h1' : f1 = some sid := h1
  have h2' : f2 = some stid := h2
  have h3' : f3 = some aid := h3
  have h4' : f4 = some url := h4
  subst h1' h2' h3' h4'
  set msg : InboundMsg := ⟨sid, stid, aid, url, f5, f6⟩ with hmsg
  obtain ⟨r0, hget0, hsid0, _, _⟩ := create_found db msg nn now hfresh
  have hmark := handlerMark_found hget0 e now
  have hhandle : handle_submission db msg orc nn now sa =
      (.error e, handlerMarkRequestFailed (create_feedback_request db msg nn now).2
        (create_feedback_request db msg nn now).1 e now) := by
    unfold handle_submission
    rw [hctx]
  have hproc : process_message
      (some ⟨some sid, some stid, some aid, some url, f5, f6⟩) db orc nn now sa =
      (.nackRequeue, handlerMarkRequestFailed (create_feedback_request db msg nn now).2
        (create_feedback_request db msg nn now).1 e now) := by
    show (match handle_submission db msg orc nn now sa with
      | (.ok _, db') => (ConsumerOutcome.ack, db')
      | (.error _, db') => (ConsumerOutcome.nackRequeue, db')) =
      (.nackRequeue, handlerMarkRequestFailed (create_feedback_request db msg nn now).2
        (create_feedback_request db msg nn now).1 e now)
    rw [hhandle]
  rw [hproc]
  refine ⟨rfl, ?_⟩
  refine ⟨{ r0 with status := "Failed", error_log := some e, completed_at := some now }, ?_, hsid0, rfl, rfl⟩
  exact (getDoc_ok_mem hmark).1

/-- C1 witness: with an empty store, a valid message and a failing context
fetch, the message is requeued and the stored record is `Failed` with the
error recorded. -/
theorem failure_recorded_then_requeued_witness :
    (process_message (some exRaw) [] orcCtxFail "FR-1" 5 "t").1 = .nackRequeue ∧
      ∃ r ∈ (process_message (some exRaw) [] orcCtxFail "FR-1" 5 "t").2,
        r.submission_id = "s1" ∧ r.status = "Failed" ∧ r.error_log = some "API down" :=
  failure_recorded_then_requeued [] exRaw "s1" "st1" "a1" "img://x" orcCtxFail "FR-1" 5 "t"
    "API down" rfl rfl rfl rfl rfl (by intro x hx; cases hx)

theorem liveAdds_append (records : List (String × Option Vec)) :
    ∀ s : IndexState, liveAdds s records =
      ⟨s.vectors ++ (loadLoop records).1, s.vector_ids ++ (loadLoop records).2⟩ := by
  induction records with
  | nil => intro s; simp [liveAdds, loadLoop]
  | cons p rest ih =>
    intro s
    obtain ⟨name, load⟩ := p
    cases load with
    | some v => simp [liveAdds, loadLoop, add_vector, ih]
    | none => simp [liveAdds, loadLoop, add_vector, ih]

/-- C6. Rebuilding the index from storage — adding each persisted record's
vector in creation order and skipping records that fail to load — produces
exactly the index state of the equivalent sequence of live `add_vector`
calls, and therefore every subsequent `search_similar(v, k)` returns the same
ordered result. -/
theorem rebuild_matches_live_adds (records : List (String × Option Vec)) (q : Vec) (k : Nat) :
    rebuildFromStorage records = liveAdds ⟨[], []⟩ records ∧
      search_similar (rebuildFromStorage records) q k =
        search_similar (liveAdds ⟨[], []⟩ records) q k := by
  have h : rebuildFromStorage records = liveAdds ⟨[], []⟩ records := by
    rw [liveAdds_append records ⟨[], []⟩]
    simp [rebuildFromStorage]
  exact ⟨h, by rw [h]⟩

theorem pyGet_ok {α : Type} (l : List α) (i : Int) (h0 : 0 ≤ i) (h1 : i < l.length) :
    ∃ a, pyGet l i = .ok a := by
  have hneg : ¬ i < 0 := not_lt.mpr h0
  have hlt : i.toNat < l.length := by omega
  refine ⟨l.get ⟨i.toNat, hlt⟩, ?_⟩
  simp [pyGet, hneg, List.getElem?_eq_getElem hlt]

theorem searchLoop_ok (ids : List String) (pairs : List (ℚ × Int))
    (h : ∀ p ∈ pairs, 0 ≤ p.2 ∧ p.2 < (ids.length : Int)) :
    ∃ res, searchLoop ids pairs = .ok res ∧ res.map Prod.snd = pairs.map Prod.fst := by
  induction pairs with
  | nil => exact ⟨[], rfl, rfl⟩
  | cons p rest ih =>
    obtain ⟨d, idx⟩ := p
    obtain ⟨hp0, hp1⟩ := h (d, idx) (List.mem_cons_self ..)
    obtain ⟨name, hname⟩ := pyGet_ok ids idx hp0 hp1
    obtain ⟨res, hres, hmap⟩ := ih (fun p hp => h p (List.mem_cons_of_mem _ hp))
    refine ⟨(name, d) :: res, ?_, by simp [hmap]⟩
    simp [searchLoop, hp1, hname, hres, Except.map]

/-- C4 counterexample: on an empty index the code does not return a length-0
sequence — the FAISS padding label `-1` passes the `idx < len(vector_ids)`
guard and `vector_ids[-1]` raises `IndexError` on the empty list, which
`search_similar` re-raises. -/
theorem search_empty_index_raises :
    search_similar ⟨[], []⟩ [1, 0] 1 ≠ .ok [] ∧
      search_similar ⟨[], []⟩ [1, 0] 1 = .error "IndexError: list index out of range" := by
  constructor
  · decide
  · decide

/-- C4 (amended). When `k` is at most the corpus size, `search_similar`
returns `.ok` with exactly `k` results ordered ascending by squared-L2
distance; but on an *empty* index (any `k ≥ 1`) it raises `IndexError`
instead of returning an empty sequence, because the FAISS `-1` padding label
passes the `idx < len(vector_ids)` guard and Python's negative indexing
dereferences `vector_ids[-1]`. The spec's concrete example holds:
for `v = [1,0]` over `{a=[1,0], b=[0,1], c=[0.9,0.1]}`, `search(v, 2)`
returns `[a, c]` with `a` at distance 0. -/
theorem search_similar_ordered_bounded :
    (∀ (s : IndexState) (q : Vec) (k : Nat),
      s.vector_ids.length = s.vectors.length → k ≤ s.vectors.length →
      ∃ res, search_similar s q k = .ok res ∧ res.length = k ∧
        List.Sorted (fun a b : String × ℚ => a.2 ≤ b.2) res) ∧
    (∀ (q : Vec) (k : Nat), 1 ≤ k →
      search_similar ⟨[], []⟩ q k = .error "IndexError: list index out of range") ∧
    search_similar exCorpus [1, 0] 2 = .ok [("a", 0), ("c", 1/50)] := by
  refine ⟨?_, ?_, ?_⟩
  · intro s q k hlen hk
    set scored := (List.range s.vectors.length).map
      (fun i => (sqDist q (s.vectors.getD i []), (i : Int))) with hscored
    have hslen : scored.length = s.vectors.length := by simp [hscored]
    have hperm := List.perm_insertionSort distLe scored
    have hsortlen : (List.insertionSort distLe scored).length = s.vectors.length := by
      rw [hperm.length_eq, hslen]
    set top := (List.insertionSort distLe scored).take k with htop
    have htoplen : top.length = k := by
      rw [htop, List.length_take, hsortlen]
      omega
    have hpad : faissSearch s.vectors q k = top := by
      simp only [faissSearch]
      rw [← hscored, ← htop, htoplen, Nat.sub_self]
      simp
    have hbound : ∀ p ∈ top, 0 ≤ p.2 ∧ p.2 < (s.vector_ids.length : Int) := by
      intro p hp
      have hmem : p ∈ scored := hperm.mem_iff.mp ((List.take_sublist k _).subset hp)
      rw [hscored] at hmem
      obtain ⟨i, hi, rfl⟩ := List.mem_map.mp hmem
      have hilt : i < s.vectors.length := List.mem_range.mp hi
      refine ⟨?_, ?_⟩
      · show (0 : ℤ) ≤ (i : ℤ)
        exact_mod_cast Int.ofNat_nonneg i
      · show (i : ℤ) < (s.vector_ids.length : ℤ)
        rw [hlen]
        exact_mod_cast hilt
    obtain ⟨res, hres, hmap⟩ := searchLoop_ok s.vector_ids top hbound
    refine ⟨res, ?_, ?_, ?_⟩
    · rw [search_similar, hpad]
      exact hres
    · have := congrArg List.length hmap
      simpa [htoplen] using this
    · have hsorted := List.sorted_insertionSort distLe scored
      have htopsorted : top.Pairwise distLe :=
        List.Pairwise.sublist (htop ▸ List.take_sublist k _) hsorted
      have hfst : (top.map Prod.fst).Pairwise (fun a b : ℚ => a ≤ b) :=
        List.pairwise_map.mpr htopsorted
      rw [← hmap] at hfst
      exact List.pairwise_map.mp hfst
  · intro q k hk
    cases k with
    | zero => omega
    | succ k' =>
      simp [search_similar, faissSearch, searchLoop, pyGet, List.replicate_succ]
  · norm_num [search_similar, exCorpus, faissSearch, searchLoop, pyGet, sqDist, distLe,
      fltMax, List.insertionSort, List.orderedInsert, List.range_succ, Except.map, Int.toNat]

/-- C4 witness: a singleton index searched with `k = 1` returns one ordered
result, and the empty index raises. -/
theorem search_similar_ordered_bounded_witness :
    (∃ res, search_similar ⟨[[1, 0]], ["a"]⟩ [0, 1] 1 = .ok res ∧ res.length = 1 ∧
      List.Sorted (fun a b : String × ℚ => a.2 ≤ b.2) res) ∧
    search_similar ⟨[], []⟩ [3, 4] 2 = .error "IndexError: list index out of range" :=
  ⟨search_similar_ordered_bounded.1 ⟨[[1, 0]], ["a"]⟩ [0, 1] 1 (by decide) (by decide),
    search_similar_ordered_bounded.2.1 [3, 4] 2 (by decide)⟩

/-- C5 counterexample: an authentication failure (HTTP 401) does *not* abort
immediately — the 401 is converted to `ValueError` before `raise_for_status`,
lands in the generic `except Exception` handler, and is retried through the
entire 3-attempt budget (backoffs 1s, 2s, 4s); a malformed (message-less)
response body behaves the same way. -/
theorem auth_failure_consumes_full_budget :
    fetchFromApi (fun _ => .resp 401 true "ctx") =
      ⟨.error "Failed to fetch assignment context: Authentication failed - check API key and secret",
        3, [1, 2, 4]⟩ ∧
    fetchFromApi (fun _ => .resp 200 false "ctx") =
      ⟨.error "Failed to fetch assignment context: Invalid response format from API",
        3, [1, 2, 4]⟩ := by
  constructor
  · decide
  · decide

/-- C5 (amended). In `AssignmentContextFetcher._fetch_from_api`, transient
network failures are retried up to 3 attempts with exponential backoff whose
delay doubles each attempt (1s, 2s, 4s, including a wait after the final
failure); HTTP 403/404 status errors abort immediately after a single
attempt with no backoff; however a 401 authentication failure (and a
malformed response body) is retried through the full budget rather than
aborting early; after exhaustion `get_assignment_context` re-raises with no
cache write. The `AssignmentContextManager` fetch used by the live handler
path performs exactly one attempt with no retry and no backoff. -/
theorem context_fetch_retry_policy :
    (∀ (f : Nat → ApiResp) (m : Nat → String),
      (∀ i, i < 3 → f i = .netErr (m i)) →
      fetchFromApi f =
        ⟨.error ("Failed to fetch assignment context: " ++ ("Request error: " ++ m 2)),
          3, [1, 2, 4]⟩) ∧
    (∀ (f : Nat → ApiResp) (st : Nat) (hm : Bool) (c : String),
      f 0 = .resp st hm c → st = 403 ∨ st = 404 →
      fetchFromApi f =
        ⟨.error ("Failed to fetch assignment context: " ++ ("HTTP error " ++ toString st)),
          1, []⟩) ∧
    (∀ (f : Nat → ApiResp) (b : Nat → Bool) (c : Nat → String),
      (∀ i, i < 3 → f i = .resp 401 (b i) (c i)) →
      fetchFromApi f =
        ⟨.error "Failed to fetch assignment context: Authentication failed - check API key and secret",
          3, [1, 2, 4]⟩) ∧
    (∀ (f : Nat → ApiResp) (db : List (String × String)) (aid e : String),
      (fetchFromApi f).result = .error e →
      getAssignmentContext none f db aid = (.error e, db)) ∧
    (∀ f g : Nat → ApiResp, f 0 = g 0 →
      managerFetchFromApi f = managerFetchFromApi g ∧
        (managerFetchFromApi f).attemptsUsed = 1 ∧ (managerFetchFromApi f).waits = []) := by
  refine ⟨?_, ?_, ?_, ?_, ?_⟩
  · intro f m h
    have h0 := h 0 (by omega)
    have h1 := h 1 (by omega)
    have h2 := h 2 (by omega)
    simp [fetchFromApi, maxRetries, fetchGo, h0, h1, h2, waitBeforeRetry, retryDelay]
  · intro f st hm c hf hst
    rcases hst with h | h <;> subst h <;>
      simp [fetchFromApi, maxRetries, fetchGo, hf]
  · intro f b c h
    have h0 := h 0 (by omega)
    have h1 := h 1 (by omega)
    have h2 := h 2 (by omega)
    simp [fetchFromApi, maxRetries, fetchGo, h0, h1, h2, waitBeforeRetry, retryDelay]
  · intro f db aid e h
    simp [getAssignmentContext, h]
  · intro f g h
    refine ⟨?_, ?_, ?_⟩
    · unfold managerFetchFromApi
      rw [h]
    · unfold managerFetchFromApi
      rcases f 0 with m | ⟨st, hm, c⟩
      · rfl
      · dsimp only
        split
        · rfl
        · split
          · rfl
          · rfl
    · unfold managerFetchFromApi
      rcases f 0 with m | ⟨st, hm, c⟩
      · rfl
      · dsimp only
        split
        · rfl
        · split
          · rfl
          · rfl

/-- C5 witness: each clause instantiated — all-network-error runs, an
immediate 404 abort, the thrice-retried 401, the uncached failure, and the
single-attempt manager fetch. -/
theorem context_fetch_retry_policy_witness :
    fetchFromApi (fun _ => .netErr "t/o") =
      ⟨.error "Failed to fetch assignment context: Request error: t/o", 3, [1, 2, 4]⟩ ∧
    fetchFromApi (fun _ => .resp 404 true "c") =
      ⟨.error "Failed to fetch assignment context: HTTP error 404", 1, []⟩ ∧
    fetchFromApi (fun _ => .resp 401 false "c") =
      ⟨.error "Failed to fetch assignment context: Authentication failed - check API key and secret",
        3, [1, 2, 4]⟩ ∧
    getAssignmentContext none (fun _ => .netErr "t/o") [("a2", "old")] "a1" =
      (.error "Failed to fetch assignment context: Request error: t/o", [("a2", "old")]) ∧
    managerFetchFromApi (fun _ => .netErr "down") = managerFetchFromApi (fun _ => .netErr "down") ∧
    (managerFetchFromApi (fun _ => .netErr "down")).attemptsUsed = 1 :=
  ⟨context_fetch_retry_policy.1 (fun _ => .netErr "t/o") (fun _ => "t/o") (fun _ _ => rfl),
    context_fetch_retry_policy.2.1 (fun _ => .resp 404 true "c") 404 true "c" rfl (.inr rfl),
    context_fetch_retry_policy.2.2.1 (fun _ => .resp 401 false "c") (fun _ => false)
      (fun _ => "c") (fun _ _ => rfl),
    context_fetch_retry_policy.2.2.2.1 (fun _ => .netErr "t/o") [("a2", "old")] "a1" _ (by decide),
    (context_fetch_retry_policy.2.2.2.2 (fun _ => .netErr "down") (fun _ => .netErr "down") rfl).1,
    (context_fetch_retry_policy.2.2.2.2 (fun _ => .netErr "down") (fun _ => .netErr "down") rfl).2.1⟩

/-- C7 counterexample: the outbound message published for a completed attempt
does not contain the claimed `summary_text`, `plagiarism_score` or
`similar_sources` fields — its keys are exactly `{submission_id, student_id,
assignment_id, feedback, generated_at, grade}` plus `sent_at` and
`service`. -/
theorem outbound_payload_missing_spec_fields :
    (prepare_tap_feedback [exReq] "FR-1" exFb).map
        (fun p => jsonKeys (p ++ [("sent_at", Json.str "t"), ("service", Json.str "RAG")])) =
      .ok ["submission_id", "student_id", "assignment_id", "feedback", "generated_at",
        "grade", "sent_at", "service"] ∧
    (prepare_tap_feedback [exReq] "FR-1" exFb).map
        (fun p => ((jsonKeys p).contains "summary_text", (jsonKeys p).contains "plagiarism_score",
          (jsonKeys p).contains "similar_sources")) = .ok (false, false, false) := by
  constructor
  · rfl
  · rfl

/-- C7 (amended). Every outbound message published after a completed attempt
is the JSON object `{submission_id, student_id, assignment_id, feedback,
generated_at, grade}` with a `sent_at` timestamp and the fixed
`service = "RAG"` tag appended at publish time; it carries no `summary_text`,
`plagiarism_score` or `similar_sources` fields. -/
theorem outbound_payload_fields (db : List FeedbackRequest) (rid : String) (fb : Feedback)
    (r : FeedbackRequest) (sentAt : String) (hget : getDoc db rid = .ok r) :
    ∃ payload, prepare_tap_feedback db rid fb = .ok payload ∧
      send_feedback_to_tap payload (.ok ()) sentAt =
        .ok (payload ++ [("sent_at", Json.str sentAt), ("service", Json.str "RAG")]) ∧
      jsonKeys (payload ++ [("sent_at", Json.str sentAt), ("service", Json.str "RAG")]) =
        ["submission_id", "student_id", "assignment_id", "feedback", "generated_at",
          "grade", "sent_at", "service"] := by
  refine ⟨[
    ("submission_id", .str r.submission_id),
    ("student_id", .str r.student_id),
    ("assignment_id", .str r.assignment_id),
    ("feedback", .obj [
      ("overall_feedback", .str fb.overall_feedback),
      ("strengths", .arr (fb.strengths.map .str)),
      ("areas_for_improvement", .arr (fb.areas_for_improvement.map .str)),
      ("learning_objectives_feedback", .arr (fb.learning_objectives_feedback.map .str)),
      ("grade_recommendation", .str fb.grade_recommendation),
      ("encouragement", .str fb.encouragement)]),
    ("generated_at", .str (pyStrOfOpt r.completed_at)),
    ("grade", .int (extract_grade fb.grade_recommendation))], ?_, rfl, rfl⟩
  unfold prepare_tap_feedback
  rw [hget]

/-- C7 witness: the payload for the completed `exReq` record. -/
theorem outbound_payload_fields_witness :
    ∃ payload, prepare_tap_feedback [exReq] "FR-1" exFb = .ok payload ∧
      send_feedback_to_tap payload (.ok ()) "t" =
        .ok (payload ++ [("sent_at", Json.str "t"), ("service", Json.str "RAG")]) ∧
      jsonKeys (payload ++ [("sent_at", Json.str "t"), ("service", Json.str "RAG")]) =
        ["submission_id", "student_id", "assignment_id", "feedback", "generated_at",
          "grade", "sent_at", "service"] :=
  outbound_payload_fields [exReq] "FR-1" exFb exReq "t" (by decide)

end RagService
